import Mathlib

/-!
Verification development for a small visit-tracking backend (a Flask app,
src/app.py). The app records website visits in an append-only table,
aggregates unique monthly visitor counts, and sends click-notification
emails. We embed the three HTTP handlers (track_visit,
get_monthly_visitors, notify_click), the after_request CORS hook, and the
data model (the Visitor table row) as executable Lean definitions, and
prove properties of them.
-/

namespace ProfileBack

/-- JSON scalar values appearing in this app's response bodies. -/
inductive JVal where
  | str (s : String)
  | int (n : Int)
deriving DecidableEq, Repr

/-- A JSON object, as an ordered association list (the bodies built by
jsonify in src/app.py). -/
abbrev JObj := List (String × JVal)

/-- An HTTP response: status code, JSON body, and response headers. -/
structure Resp where
  status : Nat
  body : JObj
  headers : List (String × String) := []
deriving DecidableEq, Repr

/-- A UTC instant, at the granularity the app observes
(datetime.now(timezone.utc)); only the calendar fields the code reads are
modelled. -/
structure DateTime where
  year : Int
  month : Nat
  day : Nat
  hour : Nat
  minute : Nat
  second : Nat
deriving DecidableEq, Repr

/-- A real instant has a calendar month between 1 and 12; this is the
range Python's datetime.month always lies in. -/
def DateTime.validMonth (t : DateTime) : Prop :=
  1 ≤ t.month ∧ t.month ≤ 12

instance (t : DateTime) : Decidable t.validMonth := by
  unfold DateTime.validMonth; infer_instance

/-- One row of the visitor table (class Visitor in src/app.py:39-48):
id primary key, ip_address, optional user_agent, timestamp (column
default: a fresh datetime.now(timezone.utc) evaluated at flush time),
and the denormalized visit_month / visit_year period fields. -/
structure Visitor where
  id : Nat
  ip_address : String
  user_agent : Option String
  timestamp : DateTime
  visit_month : Nat
  visit_year : Int
deriving DecidableEq, Repr

/-- An outbound email message (flask_mail.Message as built by the app:
subject, recipients list containing ADMIN_EMAIL which may be unset, body). -/
structure EmailMsg where
  subject : String
  recipients : List (Option String)
  body : String
deriving DecidableEq, Repr

/-- The JSON body situation of an inbound POST /api/track-visit request:
not declared JSON at all, declared JSON but unparsable, or valid JSON
carrying an optional pageURL field. -/
inductive JsonBody where
  | notJson
  | invalid
  | valid (pageURL : Option String)
deriving DecidableEq, Repr

/-- The inputs the track_visit handler reads from the request:
request.remote_addr, the User-Agent header, and the JSON body. -/
structure TrackRequest where
  remote_addr : String
  user_agent : Option String
  body : JsonBody
deriving DecidableEq, Repr

/-- What the Flask dispatch sees from a view invocation: either a
response value the view returned, or an HTTPException (by status code)
raised before the view returned, handled at framework level. -/
inductive HandlerResult where
  | ok (r : Resp)
  | httpError (status : Nat)
deriving DecidableEq, Repr

/-- Python's truthiness-based `a or b` specialised to integers:
yields a unless a == 0 (falsy), in which case b. -/
def pyOrInt (a b : Int) : Int :=
  if a = 0 then b else a

/-- The numeric value of a decimal digit character, none otherwise. -/
def digitVal (c : Char) : Option Nat :=
  if '0' ≤ c ∧ c ≤ '9' then some (c.toNat - '0'.toNat) else none

/-- A nonempty all-digit character list read as a decimal natural. -/
def pyDigits : List Char → Option Nat
  | [] => none
  | [c] => digitVal c
  | c :: cs =>
    match digitVal c, pyDigits cs with
    | some d, some n => some (d * 10 ^ cs.length + n)
    | _, _ => none

/-- Python int(text) on query-parameter text: an optional leading minus
sign followed by decimal digits; anything else fails. (The tolerance of
int() for surrounding whitespace, a leading plus and digit-group
underscores is not modelled.) -/
def pyIntOfString (s : String) : Option Int :=
  match s.data with
  | '-' :: cs => (pyDigits cs).map (fun n => -(n : Int))
  | cs => (pyDigits cs).map (fun n => (n : Int))

/-- Flask's request.args.get(name, default=dflt, type=int): the absent
parameter and the parameter whose text does not convert to an integer
both yield the default; a convertible value is used as-is
(src/app.py:112-113). -/
def parseParam (raw : Option String) (dflt : Int) : Int :=
  match raw with
  | none => dflt
  | some s =>
    match pyIntOfString s with
    | some n => n
    | none => dflt

/-- The aggregation query (src/app.py:116-118): the number of distinct
ip_address values among rows with visit_month = month and
visit_year = year. -/
def count_distinct_visitors (store : List Visitor) (month year : Int) : Nat :=
  (((store.filter
      (fun v => (v.visit_month : Int) == month && v.visit_year == year)).map
        (fun v => v.ip_address)).dedup).length

/-- The 201 success body of track_visit (src/app.py:103). -/
def trackSuccessResp : Resp :=
  { status := 201, body := [("message", JVal.str "Visit tracked successfully")] }

/-- The generic 500 failure body of track_visit (src/app.py:107). -/
def trackFailureResp : Resp :=
  { status := 500, body := [("error", JVal.str "Could not track visit")] }

/-- The generic 500 failure body of get_monthly_visitors (src/app.py:127). -/
def monthlyFailureResp : Resp :=
  { status := 500, body := [("error", JVal.str "Could not retrieve visitor count")] }

/-- The row constructed by Visitor(...) inside track_visit
(src/app.py:91-96): ip_address and user_agent from the request,
visit_month / visit_year from the instant captured at handler entry,
timestamp filled by the column default — a separate
datetime.now(timezone.utc) evaluated at flush time — and the next
sequential primary key. -/
def newVisitor (req : TrackRequest) (handlerTime flushTime : DateTime)
    (store : List Visitor) : Visitor :=
  { id := store.length + 1
    ip_address := req.remote_addr
    user_agent := req.user_agent
    timestamp := flushTime
    visit_month := handlerTime.month
    visit_year := handlerTime.year }

/-- The POST /api/track-visit handler (src/app.py:80-107).
handlerTime is the datetime.now(timezone.utc) captured at line 86;
flushTime is the later datetime.now(timezone.utc) the timestamp column
default evaluates to during commit; commitFails models any exception
from the insert/commit (caught, session rolled back, generic 500).
Reading request.json on an unparsable JSON body raises BadRequest
before the try block, so nothing is inserted and the framework answers
with a 400. Returns (new store, sent emails, dispatch result); the
email-notification call is commented out in the source, so the sent
list is always returned unchanged. -/
def track_visit (req : TrackRequest) (handlerTime flushTime : DateTime)
    (store : List Visitor) (commitFails : Bool) (sent : List EmailMsg) :
    List Visitor × List EmailMsg × HandlerResult :=
  match req.body with
  | .invalid => (store, sent, .httpError 400)
  | b =>
    let _page_url : Option String :=
      match b with
      | .valid p => p
      | _ => none
    if commitFails then
      (store, sent, .ok trackFailureResp)
    else
      (store ++ [newVisitor req handlerTime flushTime store], sent,
        .ok trackSuccessResp)

/-- The GET /api/monthly-visitors handler (src/app.py:109-127).
now is the datetime.now(timezone.utc) of line 111; rawMonth / rawYear
are the raw query parameter texts (none when absent); queryFails models
an exception from the store query (caught, generic 500). The success
body is jsonify of month, year, and unique_visitors computed as
`unique_visitor_count + 2 or 2` (Python truthiness). -/
def get_monthly_visitors (now : DateTime) (rawMonth rawYear : Option String)
    (store : List Visitor) (queryFails : Bool) : Resp :=
  let month := parseParam rawMonth (now.month : Int)
  let year := parseParam rawYear now.year
  if queryFails then monthlyFailureResp
  else
    let unique_visitor_count := count_distinct_visitors store month year
    { status := 200
      body := [("month", JVal.int month), ("year", JVal.int year),
               ("unique_visitors",
                 JVal.int (pyOrInt ((unique_visitor_count : Int) + 2) 2))] }

/-- The JSON body of a POST /api/notify-click request after
request.get_json(silent=True): none when absent or unparsable, otherwise
the optional link_kind and page fields. -/
structure ClickData where
  link_kind : Option String
  page : Option String
deriving DecidableEq, Repr

/-- The POST /api/notify-click handler (src/app.py:129-151).
get_json(silent=True) or {} never raises; absent fields default to the
placeholder strings; mail.send may raise (deliveryFails), in which case
the exception is caught and logged. The function body contains no return
statement on any path, so the view always yields None (modelled as the
Option Resp component being none). -/
def notify_click (jsonData : Option ClickData) (userAgentHeader : Option String)
    (adminEmail : Option String) (deliveryFails : Bool) (sent : List EmailMsg) :
    List EmailMsg × Option Resp :=
  let data := jsonData.getD ⟨none, none⟩
  let kind := data.link_kind.getD "unknown link"
  let page := data.page.getD "unknown page"
  let ua := userAgentHeader.getD "unknown UA"
  let msg : EmailMsg :=
    { subject := "🎉  [Portfolio] " ++ kind ++ " clicked"
      recipients := [adminEmail]
      body := kind ++ " was clicked!\n page: " ++ page ++ " ua: " ++ ua }
  if deliveryFails then (sent, none)
  else (sent ++ [msg], none)

/-- Flask finalization of a view result: a returned response passes
through; a view that returns None makes Flask raise TypeError, which
surfaces as a 500 Internal Server Error response. -/
def flask_finalize (viewResult : Option Resp) : Resp :=
  match viewResult with
  | some r => r
  | none => { status := 500, body := [("error", JVal.str "Internal Server Error")] }

/-- The after_request hook (src/app.py:154-161): appends the four CORS
headers to every response before it is sent; the origin is the
FRONTEND_URL environment variable, or * when unset. -/
def after_request (frontendUrl : Option String) (response : Resp) : Resp :=
  { response with
    headers := response.headers ++
      [("Access-Control-Allow-Origin", frontendUrl.getD "*"),
       ("Access-Control-Allow-Headers", "Content-Type,Authorization"),
       ("Access-Control-Allow-Methods", "GET,PUT,POST,DELETE,OPTIONS"),
       ("Access-Control-Allow-Credentials", "true")] }

/-! ### Helper lemmas -/

/-- The distinct count coming from the store is a natural number, so
adding 2 gives a nonzero (truthy) value and the Python `or 2` guard
never fires. -/
theorem pyOrInt_count_offset (c : Nat) : pyOrInt ((c : Int) + 2) 2 = (c : Int) + 2 := by
  unfold pyOrInt
  rw [if_neg]
  omega

/-- If every stored row has visit_month between 1 and 12, a query for
any month outside that range matches no row, so the distinct count is 0. -/
theorem count_distinct_out_of_range (store : List Visitor) (m year : Int)
    (hm : m < 1 ∨ 12 < m)
    (h : ∀ v ∈ store, 1 ≤ v.visit_month ∧ v.visit_month ≤ 12) :
    count_distinct_visitors store m year = 0 := by
  unfold count_distinct_visitors
  have hfil : store.filter
      (fun v => (v.visit_month : Int) == m && v.visit_year == year) = [] := by
    rw [List.filter_eq_nil_iff]
    intro v hv
    have h1 := (h v hv).1
    have h2 := (h v hv).2
    simp only [Bool.and_eq_true, beq_iff_eq, not_and]
    intro hvm _
    omega
  rw [hfil]
  rfl

/-! ### Claim theorems -/

/-- C1: for every successful GET /api/monthly-visitors response, the
unique_visitors field equals the distinct ip_address count for the
queried (month, year) plus exactly 2; a zero count yields 2, and the
Python `or 2` fallback in `count + 2 or 2` never changes the result
because the count is a natural number. -/
theorem C1_unique_visitors_is_count_plus_two (now : DateTime)
    (rawMonth rawYear : Option String) (store : List Visitor) :
    get_monthly_visitors now rawMonth rawYear store false =
      { status := 200
        body := [("month", JVal.int (parseParam rawMonth (now.month : Int))),
                 ("year", JVal.int (parseParam rawYear now.year)),
                 ("unique_visitors",
                   JVal.int ((count_distinct_visitors store
                       (parseParam rawMonth (now.month : Int))
                       (parseParam rawYear now.year) : Int) + 2))] }
    ∧ (∀ c : Nat, pyOrInt ((c : Int) + 2) 2 = (c : Int) + 2)
    ∧ pyOrInt ((0 : Int) + 2) 2 = 2 := by
  refine ⟨?_, fun c => pyOrInt_count_offset c, by decide⟩
  simp [get_monthly_visitors, pyOrInt_count_offset]

/-- C2 (code behavior at the failing input): the notify_click view body
contains no return statement on any path — delivery failing or not, the
view yields None, and Flask turns a None-returning view into a 500
Internal Server Error, not a 200-class success response. -/
theorem C2_notify_click_view_returns_none (jsonData : Option ClickData)
    (ua adminEmail : Option String) (deliveryFails : Bool) (sent : List EmailMsg) :
    (notify_click jsonData ua adminEmail deliveryFails sent).2 = none
    ∧ (flask_finalize (notify_click jsonData ua adminEmail deliveryFails sent).2).status
        = 500 := by
  unfold notify_click flask_finalize
  cases deliveryFails <;> simp

/-- C5: an unparsable month or year query parameter behaves exactly like
an absent one — the current UTC month/year is substituted — and the
handler proceeds to answer with status 200 rather than erroring. -/
theorem C5_unparsable_params_fall_back (now : DateTime) (s t : String)
    (store : List Visitor) (hs : pyIntOfString s = none) (ht : pyIntOfString t = none) :
    parseParam (some s) (now.month : Int) = (now.month : Int)
    ∧ parseParam (some t) now.year = now.year
    ∧ get_monthly_visitors now (some s) (some t) store false =
        get_monthly_visitors now none none store false
    ∧ (get_monthly_visitors now (some s) (some t) store false).status = 200 := by
  refine ⟨by simp [parseParam, hs], by simp [parseParam, ht], ?_, ?_⟩ <;>
    simp [get_monthly_visitors, parseParam, hs, ht]

/-- C5 witness: the concrete unparsable strings "abc" and "xyz" fall
back to the defaults and the response is a 200. -/
theorem C5_witness :
    pyIntOfString "abc" = none ∧ pyIntOfString "xyz" = none
    ∧ (get_monthly_visitors ⟨2025, 3, 14, 9, 26, 53⟩ (some "abc") (some "xyz")
        [] false).status = 200 :=
  ⟨by decide, by decide,
    (C5_unparsable_params_fall_back ⟨2025, 3, 14, 9, 26, 53⟩ "abc" "xyz" []
      (by decide) (by decide)).2.2.2⟩

/-- C7: any month parameter whose integer value lies outside 1..12
(13, 0, negatives, anything larger) is passed to the store query
unmodified (the response echoes it verbatim), and since every stored row
has visit_month in 1..12 the distinct count is 0 and unique_visitors is
2 — zero plus the offset. -/
theorem C7_out_of_range_month_passed_through (now : DateTime) (s : String)
    (m : Int) (rawYear : Option String) (store : List Visitor)
    (hs : pyIntOfString s = some m) (hm : m < 1 ∨ 12 < m)
    (h : ∀ v ∈ store, 1 ≤ v.visit_month ∧ v.visit_month ≤ 12) :
    parseParam (some s) (now.month : Int) = m
    ∧ count_distinct_visitors store m (parseParam rawYear now.year) = 0
    ∧ get_monthly_visitors now (some s) rawYear store false =
        { status := 200
          body := [("month", JVal.int m),
                   ("year", JVal.int (parseParam rawYear now.year)),
                   ("unique_visitors", JVal.int 2)] } := by
  have hp : parseParam (some s) (now.month : Int) = m := by
    simp [parseParam, hs]
  have hc := count_distinct_out_of_range store m (parseParam rawYear now.year) hm h
  refine ⟨hp, hc, ?_⟩
  simp [get_monthly_visitors, hp, hc, pyOrInt]

/-- A store with a single in-range row, used to instantiate hypotheses
about stored data at concrete inputs. -/
def sampleStore : List Visitor :=
  [{ id := 1, ip_address := "198.51.100.4", user_agent := some "Mozilla/5.0",
     timestamp := ⟨2025, 5, 2, 3, 4, 5⟩, visit_month := 5, visit_year := 2025 }]

/-- C7 witness: with one stored row for month 5 of 2025, querying
month=13 answers month 13, unique_visitors 2. -/
theorem C7_witness :
    pyIntOfString "13" = some 13 ∧ ((13 : Int) < 1 ∨ (12 : Int) < 13)
    ∧ (∀ v ∈ sampleStore, 1 ≤ v.visit_month ∧ v.visit_month ≤ 12)
    ∧ get_monthly_visitors ⟨2025, 5, 2, 3, 4, 5⟩ (some "13") none sampleStore false =
        { status := 200
          body := [("month", JVal.int 13), ("year", JVal.int 2025),
                   ("unique_visitors", JVal.int 2)] } :=
  ⟨by decide, by decide, by decide,
    (C7_out_of_range_month_passed_through ⟨2025, 5, 2, 3, 4, 5⟩ "13" 13 none
      sampleStore (by decide) (by decide) (by decide)).2.2⟩

/-- C8: every response passed through the after_request hook carries the
four CORS headers, with the origin being the configured frontend origin
or the wildcard. -/
theorem C8_cors_headers_on_every_response (frontendUrl : Option String) (r : Resp) :
    ("Access-Control-Allow-Origin", frontendUrl.getD "*")
        ∈ (after_request frontendUrl r).headers
    ∧ ("Access-Control-Allow-Headers", "Content-Type,Authorization")
        ∈ (after_request frontendUrl r).headers
    ∧ ("Access-Control-Allow-Methods", "GET,PUT,POST,DELETE,OPTIONS")
        ∈ (after_request frontendUrl r).headers
    ∧ ("Access-Control-Allow-Credentials", "true")
        ∈ (after_request frontendUrl r).headers := by
  simp [after_request]

/-- C10: a track-visit request declaring JSON with an unparsable body
makes request.json raise before the try block: the store is unchanged,
the dispatch outcome is a framework-level 400, which is neither the 201
success acknowledgment nor the generic 500 failure response. -/
theorem C10_invalid_json_is_bad_request (ip : String) (ua : Option String)
    (t1 t2 : DateTime) (store : List Visitor) (cf : Bool) (sent : List EmailMsg) :
    (track_visit ⟨ip, ua, .invalid⟩ t1 t2 store cf sent).1 = store
    ∧ (track_visit ⟨ip, ua, .invalid⟩ t1 t2 store cf sent).2.2 = .httpError 400
    ∧ HandlerResult.httpError 400 ≠ HandlerResult.ok trackSuccessResp
    ∧ HandlerResult.httpError 400 ≠ HandlerResult.ok trackFailureResp :=
  ⟨rfl, rfl, by decide, by decide⟩

/-- C4: whenever track_visit answers with the 201 success response,
exactly one new row was appended (the explicit newVisitor row, carrying
the UTC month and year of the recording instant), and repeating the
identical call appends a second, distinct row — no deduplication. -/
theorem C4_success_appends_exactly_one (req : TrackRequest) (t1 t2 : DateTime)
    (store : List Visitor) (cf : Bool) (sent : List EmailMsg)
    (hsucc : (track_visit req t1 t2 store cf sent).2.2 = .ok trackSuccessResp) :
    (track_visit req t1 t2 store cf sent).1 = store ++ [newVisitor req t1 t2 store]
    ∧ (newVisitor req t1 t2 store).visit_month = t1.month
    ∧ (newVisitor req t1 t2 store).visit_year = t1.year
    ∧ (track_visit req t1 t2 (store ++ [newVisitor req t1 t2 store]) cf sent).1 =
        store ++ [newVisitor req t1 t2 store,
          newVisitor req t1 t2 (store ++ [newVisitor req t1 t2 store])]
    ∧ newVisitor req t1 t2 store ≠
        newVisitor req t1 t2 (store ++ [newVisitor req t1 t2 store]) := by
  have hdistinct : newVisitor req t1 t2 store ≠
      newVisitor req t1 t2 (store ++ [newVisitor req t1 t2 store]) := by
    intro h
    have hid := congrArg Visitor.id h
    simp only [newVisitor, List.length_append, List.length_singleton] at hid
    omega
  rcases req with ⟨ip, ua, body⟩
  cases body with
  | invalid =>
    exfalso
    have h : HandlerResult.httpError 400 = HandlerResult.ok trackSuccessResp := hsucc
    exact absurd h (by decide)
  | notJson =>
    cases cf with
    | true =>
      exfalso
      have h : HandlerResult.ok trackFailureResp = HandlerResult.ok trackSuccessResp := hsucc
      exact absurd h (by decide)
    | false => exact ⟨rfl, rfl, rfl, by simp [track_visit], hdistinct⟩
  | valid p =>
    cases cf with
    | true =>
      exfalso
      have h : HandlerResult.ok trackFailureResp = HandlerResult.ok trackSuccessResp := hsucc
      exact absurd h (by decide)
    | false => exact ⟨rfl, rfl, rfl, by simp [track_visit], hdistinct⟩

/-- C4 witness: a concrete successful call on the empty store appends
exactly the one explicit row. -/
theorem C4_witness :
    (track_visit ⟨"127.0.0.1", none, JsonBody.valid none⟩ ⟨2025, 6, 1, 12, 0, 0⟩
        ⟨2025, 6, 1, 12, 0, 0⟩ [] false []).2.2 = .ok trackSuccessResp
    ∧ (track_visit ⟨"127.0.0.1", none, JsonBody.valid none⟩ ⟨2025, 6, 1, 12, 0, 0⟩
        ⟨2025, 6, 1, 12, 0, 0⟩ [] false []).1 =
      [] ++ [newVisitor ⟨"127.0.0.1", none, JsonBody.valid none⟩ ⟨2025, 6, 1, 12, 0, 0⟩
        ⟨2025, 6, 1, 12, 0, 0⟩ []] :=
  ⟨rfl, (C4_success_appends_exactly_one ⟨"127.0.0.1", none, JsonBody.valid none⟩
    ⟨2025, 6, 1, 12, 0, 0⟩ ⟨2025, 6, 1, 12, 0, 0⟩ [] false [] rfl).1⟩

/-- C6: when the commit fails, track_visit leaves the store exactly as
it was (the session is rolled back, no partial write) and answers with
the generic 500 body, exposing no internal detail. -/
theorem C6_storage_failure_rolls_back (req : TrackRequest) (t1 t2 : DateTime)
    (store : List Visitor) (sent : List EmailMsg)
    (hbody : req.body ≠ JsonBody.invalid) :
    (track_visit req t1 t2 store true sent).1 = store
    ∧ (track_visit req t1 t2 store true sent).2.2 =
        .ok { status := 500, body := [("error", JVal.str "Could not track visit")] } := by
  rcases req with ⟨ip, ua, body⟩
  cases body with
  | invalid => exact absurd rfl hbody
  | notJson => exact ⟨rfl, rfl⟩
  | valid p => exact ⟨rfl, rfl⟩

/-- C6 witness: a concrete failing commit leaves the one-row store
unchanged and produces the generic 500 body. -/
theorem C6_witness :
    (track_visit ⟨"127.0.0.1", none, JsonBody.notJson⟩ ⟨2025, 6, 1, 12, 0, 0⟩
        ⟨2025, 6, 1, 12, 0, 0⟩ sampleStore true []).1 = sampleStore
    ∧ (track_visit ⟨"127.0.0.1", none, JsonBody.notJson⟩ ⟨2025, 6, 1, 12, 0, 0⟩
        ⟨2025, 6, 1, 12, 0, 0⟩ sampleStore true []).2.2 =
      .ok { status := 500, body := [("error", JVal.str "Could not track visit")] } :=
  C6_storage_failure_rolls_back ⟨"127.0.0.1", none, JsonBody.notJson⟩
    ⟨2025, 6, 1, 12, 0, 0⟩ ⟨2025, 6, 1, 12, 0, 0⟩ sampleStore [] (by decide)

/-- C9: the pageURL body field has no effect — two valid-JSON requests
differing only in pageURL produce identical results — the row written is
exactly the five-field newVisitor row, and the sent-email list is
returned unchanged (the notification invocation is commented out). -/
theorem C9_pageURL_ignored_and_no_email (ip : String) (ua : Option String)
    (p q : Option String) (t1 t2 : DateTime) (store : List Visitor) (cf : Bool)
    (sent : List EmailMsg) :
    track_visit ⟨ip, ua, JsonBody.valid p⟩ t1 t2 store cf sent =
      track_visit ⟨ip, ua, JsonBody.valid q⟩ t1 t2 store cf sent
    ∧ (track_visit ⟨ip, ua, JsonBody.valid p⟩ t1 t2 store cf sent).2.1 = sent
    ∧ (track_visit ⟨ip, ua, JsonBody.valid p⟩ t1 t2 store cf sent).1 =
        (if cf then store
         else store ++ [newVisitor ⟨ip, ua, JsonBody.valid p⟩ t1 t2 store]) := by
  cases cf <;> exact ⟨rfl, rfl, rfl⟩

/-- The request of the month-boundary scenario: valid JSON with a
pageURL, a user agent, and a client address. -/
def cexReq : TrackRequest :=
  { remote_addr := "203.0.113.7", user_agent := some "Mozilla/5.0",
    body := JsonBody.valid (some "/home") }

/-- The last second of January 2025 (handler-entry instant). -/
def janEnd : DateTime := ⟨2025, 1, 31, 23, 59, 59⟩

/-- The first second of February 2025 (column-default instant). -/
def febStart : DateTime := ⟨2025, 2, 1, 0, 0, 0⟩

/-- C3 counterexample: when the handler-entry instant is the last second
of January and the timestamp column default fires in February, the row
written by track_visit has visit_month 1 but a February timestamp, so
the stored period fields do not match the stored timestamp. -/
theorem C3_counterexample_month_boundary :
    ¬ (∀ v ∈ (track_visit cexReq janEnd febStart [] false []).1,
        v.visit_month = v.timestamp.month ∧ v.visit_year = v.timestamp.year) := by
  decide

/-- C3 amended: visit_month and visit_year are derived from the instant
captured at handler entry, while the stored timestamp comes from a
separate datetime.now evaluation at flush time; the period fields agree
with the stored timestamp exactly when those two instants share calendar
month and year. -/
theorem C3_amended_period_fields_from_handler_instant (req : TrackRequest)
    (t1 t2 : DateTime) (store : List Visitor) (sent : List EmailMsg)
    (hbody : req.body ≠ JsonBody.invalid) :
    (track_visit req t1 t2 store false sent).1 = store ++ [newVisitor req t1 t2 store]
    ∧ (newVisitor req t1 t2 store).visit_month = t1.month
    ∧ (newVisitor req t1 t2 store).visit_year = t1.year
    ∧ (newVisitor req t1 t2 store).timestamp = t2
    ∧ (((newVisitor req t1 t2 store).visit_month =
          (newVisitor req t1 t2 store).timestamp.month
        ∧ (newVisitor req t1 t2 store).visit_year =
          (newVisitor req t1 t2 store).timestamp.year)
       ↔ (t1.month = t2.month ∧ t1.year = t2.year)) := by
  rcases req with ⟨ip, ua, body⟩
  cases body with
  | invalid => exact absurd rfl hbody
  | notJson => exact ⟨rfl, rfl, rfl, rfl, Iff.rfl⟩
  | valid p => exact ⟨rfl, rfl, rfl, rfl, Iff.rfl⟩

/-- C3 amended witness: at the concrete month-boundary input the row is
appended with the period fields of the handler-entry instant. -/
theorem C3_amended_witness :
    (track_visit cexReq janEnd febStart [] false []).1 =
      [] ++ [newVisitor cexReq janEnd febStart []]
    ∧ (newVisitor cexReq janEnd febStart []).visit_month = janEnd.month :=
  ⟨(C3_amended_period_fields_from_handler_instant cexReq janEnd febStart [] []
      (by decide)).1,
   (C3_amended_period_fields_from_handler_instant cexReq janEnd febStart [] []
      (by decide)).2.1⟩

end ProfileBack
